import Mathlib

/-!
Verification of the feedback-app single-page component
(`src/pages/Index.tsx`) against its natural-language specification.

The component is a pure state machine: user events mutate a record of
React `useState` cells, and all displayed values are pure functions of
that record.  We embed the state record, the event handlers and the
derived computations as Lean definitions and prove the specified
properties about them.

Modelling conventions:
* JavaScript numbers that only ever hold non-negative integers
  (teacher ids, ratings, counts, `Date.now()` milliseconds) are `Nat`;
  signed arithmetic (time differences in `timeAgo`) is `Int`.
* `Date.now()` and `new Date().toISOString()` at a submission both
  denote the submission instant; we pass that instant as an explicit
  `now : Nat` parameter and use it for both the `id` and the
  `timestamp` field.
* `(x).toFixed(1)` on a non-negative quotient `num / den` is modelled
  in exact arithmetic as rounding `10 * num / den` to the nearest
  integer with ties rounded up (ECMAScript `toFixed` picks the larger
  candidate on a tie), i.e. `(20 * num + den) / (2 * den)` in `Nat`
  division; IEEE-754 double rounding is abstracted away.
* `Number(calculateAverageRating id)` parses back the one-decimal
  string; comparing those parsed values numerically is equivalent to
  comparing the integer number of tenths, which is how the sort
  comparator is embedded.
* `String.prototype.localeCompare` is locale dependent; every theorem
  about the sort is parametrised over an arbitrary comparison function
  `lc : String → String → Int`.
* JS `Array.prototype.sort` is a stable sort directed by the sign of
  the comparator; it is embedded as a stable insertion sort on the
  relation `compare a b ≤ 0`.
-/

namespace FeedbackApp

/-- A roster entry (`interface Teacher` in the source). -/
structure Teacher where
  id : Nat
  name : String
  department : String
  subject : String
deriving DecidableEq, Repr

/-- A submitted review (`interface Feedback` in the source).
`rating` is a `Nat` because the star control only produces 1..10 and the
form resets to 0; `timestamp` is the creation instant in milliseconds. -/
structure Feedback where
  id : Nat
  anonymousId : String
  comment : String
  rating : Nat
  timestamp : Nat
deriving DecidableEq, Repr

/-- The six seeded roster entries (the `useState<Teacher[]>` initial value). -/
def sampleTeachers : List Teacher :=
  [ { id := 1, name := "Dr. Rajesh Kumar", department := "Computer Science", subject := "Data Structures" },
    { id := 2, name := "Prof. Priya Sharma", department := "Mathematics", subject := "Linear Algebra" },
    { id := 3, name := "Dr. Arjun Menon", department := "Physics", subject := "Quantum Mechanics" },
    { id := 4, name := "Prof. Kavitha Nair", department := "Chemistry", subject := "Organic Chemistry" },
    { id := 5, name := "Dr. Suresh Babu", department := "Computer Science", subject := "Machine Learning" },
    { id := 6, name := "Prof. Meera Das", department := "English", subject := "Technical Writing" } ]

/-- The component state: one field per `useState` cell of `FeedbackApp`.
`feedbackData` models the `Record<number, Feedback[]>`: a total map from
teacher id to that teacher's list, absent keys reading as `[]`. -/
structure AppState where
  teachers : List Teacher
  currentView : String
  selectedTeacher : Option Teacher
  anonymousId : String
  feedbackData : Nat → List Feedback
  filterDepartment : String
  sortBy : String
  searchQuery : String
  showSearch : Bool
  activeStatsCard : Option String
  feedbackText : String
  feedbackRating : Nat

/-- The initial state: every `useState` initialiser of the component. -/
def initialState : AppState :=
  { teachers := sampleTeachers
    currentView := "home"
    selectedTeacher := none
    anonymousId := ""
    feedbackData := fun _ => []
    filterDepartment := "all"
    sortBy := "name"
    searchQuery := ""
    showSearch := false
    activeStatsCard := none
    feedbackText := ""
    feedbackRating := 0 }

/-- JS `String.prototype.trim`: drop leading and trailing whitespace.
Embedded on the character list so that it evaluates inside the kernel
(Lean's own `String.trim` is byte-position based and does not reduce). -/
def strTrim (s : String) : String :=
  String.mk (((s.data.dropWhile Char.isWhitespace).reverse.dropWhile
    Char.isWhitespace).reverse)

/-- Outcome of `submitFeedback`: either a blocking `alert(msg)` or success. -/
inductive SubmitResult where
  | validationError (msg : String)
  | success
deriving DecidableEq, Repr

/-- `submitFeedback` (source lines 84–117): validates teacher selection,
then trimmed comment, then rating (the source checks `feedbackRating === 0`),
each failure alerting and returning with no state change; on success appends
the new `Feedback` to the selected teacher's list, clears the form fields and
moves the view to `"success"`.  `now` is the submission instant
(`Date.now()` / `new Date()`). -/
def submitFeedback (now : Nat) (s : AppState) : SubmitResult × AppState :=
  match s.selectedTeacher with
  | none => (.validationError "Please select a teacher", s)
  | some t =>
    if strTrim s.feedbackText = "" then
      (.validationError "Please enter your feedback", s)
    else if s.feedbackRating = 0 then
      (.validationError "Please provide a rating", s)
    else
      let newFeedback : Feedback :=
        { id := now
          anonymousId := s.anonymousId
          comment := strTrim s.feedbackText
          rating := s.feedbackRating
          timestamp := now }
      (.success,
        { s with
          feedbackData := fun tid =>
            if tid = t.id then s.feedbackData t.id ++ [newFeedback]
            else s.feedbackData tid
          feedbackText := ""
          feedbackRating := 0
          currentView := "success" })

/-- The JS `(num/den).toFixed(1)` string for non-negative `num`, positive
`den`, in exact arithmetic: round `10*num/den` half-up to `tenths`, print
`tenths/10 "." tenths%10`. -/
def toFixed1 (num den : Nat) : String :=
  let tenths := (20 * num + den) / (2 * den)
  toString (tenths / 10) ++ "." ++ toString (tenths % 10)

/-- `calculateAverageRating` (source lines 71–76): `"0.0"` when the teacher
has no feedback, otherwise the mean rating formatted with `toFixed(1)`.
The `reduce((acc, fb) => acc + fb.rating, 0)` is embedded as a left fold. -/
def calculateAverageRating (s : AppState) (teacherId : Nat) : String :=
  let teacherFeedbacks := s.feedbackData teacherId
  if teacherFeedbacks.length = 0 then "0.0"
  else
    toFixed1 (teacherFeedbacks.foldl (fun acc fb => acc + fb.rating) 0)
      teacherFeedbacks.length

/-- `getFeedbackCount` (source lines 79–81). -/
def getFeedbackCount (s : AppState) (teacherId : Nat) : Nat :=
  (s.feedbackData teacherId).length

/-- The numeric value, in tenths, of `Number(calculateAverageRating id)`:
0 for an empty list, otherwise the half-up rounding of ten times the mean.
`Number` applied to the one-decimal string `toFixed1` produces recovers
exactly this many tenths, so comparing two parsed averages numerically is
comparing these `Nat`s. -/
def ratingValueTenths (s : AppState) (teacherId : Nat) : Nat :=
  let teacherFeedbacks := s.feedbackData teacherId
  if teacherFeedbacks.length = 0 then 0
  else
    (20 * (teacherFeedbacks.foldl (fun acc fb => acc + fb.rating) 0)
        + teacherFeedbacks.length) / (2 * teacherFeedbacks.length)

/-- JS `hay.toLowerCase().includes(needle.toLowerCase())`, embedded on
character lists: is the lowered needle an infix of the lowered haystack? -/
def containsSub (hay needle : String) : Bool :=
  decide ((needle.data.map Char.toLower) <:+: (hay.data.map Char.toLower))

/-- Stable insertion into a sorted list: `a` goes in front of the first
element `b` with `le a b`, i.e. after every earlier element it does not
strictly have to precede. -/
def insertLe {α : Type} (le : α → α → Bool) (a : α) : List α → List α
  | [] => [a]
  | b :: bs => if le a b then a :: b :: bs else b :: insertLe le a bs

/-- Stable insertion sort.  For a consistent JS comparator `c`,
`Array.prototype.sort(c)` (stable per ECMAScript) is this sort with
`le a b := c a b ≤ 0`: elements comparing equal keep their input order. -/
def stableSort {α : Type} (le : α → α → Bool) : List α → List α
  | [] => []
  | a :: as => insertLe le a (stableSort le as)

/-- The sort comparator of `filteredAndSortedTeachers` (source lines
140–149).  `"rating"` compares the parsed one-decimal averages (as
tenths, cast to `Int` so the subtraction is signed like in JS),
`"feedbacks"` the counts, and every other `sortBy` value falls through
to `localeCompare` on the names; `lc` stands for `localeCompare`. -/
def teacherCompare (s : AppState) (lc : String → String → Int)
    (a b : Teacher) : Int :=
  if s.sortBy = "rating" then
    (ratingValueTenths s b.id : Int) - (ratingValueTenths s a.id : Int)
  else if s.sortBy = "feedbacks" then
    (getFeedbackCount s b.id : Int) - (getFeedbackCount s a.id : Int)
  else lc a.name b.name

/-- `filteredAndSortedTeachers` (source lines 125–150): department filter
(from `teachers`, skipped when `filterDepartment` is `"all"`), then the
case-insensitive substring search over name/department/subject (skipped
when the trimmed query is empty; note the untrimmed query is the needle),
then the stable sort by `teacherCompare`. -/
def filteredAndSortedTeachers (s : AppState) (lc : String → String → Int) :
    List Teacher :=
  let filtered :=
    if s.filterDepartment ≠ "all" then
      s.teachers.filter (fun t => t.department = s.filterDepartment)
    else s.teachers
  let filtered2 :=
    if strTrim s.searchQuery ≠ "" then
      filtered.filter (fun t =>
        containsSub t.name s.searchQuery ||
        containsSub t.department s.searchQuery ||
        containsSub t.subject s.searchQuery)
    else filtered
  stableSort (fun a b => teacherCompare s lc a b ≤ 0) filtered2

/-- `timeAgo` (source lines 153–162).  `nowMs` is the evaluation instant,
`tsMs` the feedback timestamp, both in milliseconds; `Math.floor` of the
real division is `Int.fdiv`. -/
def timeAgo (nowMs tsMs : Int) : String :=
  let diffInMinutes := (nowMs - tsMs).fdiv 60000
  if diffInMinutes < 1 then "Just now"
  else if diffInMinutes < 60 then toString diffInMinutes ++ "m ago"
  else if diffInMinutes < 1440 then
    toString (diffInMinutes.fdiv 60) ++ "h ago"
  else toString (diffInMinutes.fdiv 1440) ++ "d ago"

/-- `totalFeedbackCount` over the sample roster's ids (the `Record` only
ever holds keys of selected teachers, all drawn from the roster). -/
def totalFeedbackCount (s : AppState) : Nat :=
  (s.teachers.map (fun t => (s.feedbackData t.id).length)).sum

/-- `handleStatsCardClick` (source lines 170–183): records the clicked
card in `activeStatsCard`, then applies the card-specific effects. -/
def handleStatsCardClick (s : AppState) (cardType : String) : AppState :=
  let s1 := { s with activeStatsCard := some cardType }
  if cardType = "faculty" then
    { s1 with showSearch := true, filterDepartment := "all", searchQuery := "" }
  else if cardType = "departments" then
    { s1 with showSearch := false }
  else if cardType = "reviews" then
    { s1 with showSearch := false, sortBy := "feedbacks" }
  else s1

/-- Every user-triggered state transition of the component, one
constructor per `useState` setter call site:
anonymous-id initialisation (line 58, `n` the random draw), teacher-card
click (759–760), form submission (84–117, `now` the clock reading),
stat-card click (170–183), `clearSearch` (186–190), `clearAllFilters`
(193–199), the search/department/sort/comment input handlers (203, 208,
213, 241), a star click (871; stars are 1..10), the three individual
filter removers (218, 222, 226), and the two back-to-home buttons
(827, 978). -/
inductive Action where
  | initAnonymousId (n : Nat)
  | selectTeacher (t : Teacher)
  | submit (now : Nat)
  | statsCardClick (cardType : String)
  | clearSearch
  | clearAllFilters
  | searchChange (q : String)
  | departmentChange (d : String)
  | sortChange (v : String)
  | feedbackTextChange (x : String)
  | starClick (i : Fin 10)
  | removeSearchFilter
  | removeDepartmentFilter
  | removeActiveStatsFilter
  | backToHome
  | successGoHome

/-- The transition function: the effect of each `Action` on the state. -/
def step (s : AppState) : Action → AppState
  | .initAnonymousId n => { s with anonymousId := "Anonymous " ++ toString n }
  | .selectTeacher t =>
      { s with selectedTeacher := some t, currentView := "feedback" }
  | .submit now => (submitFeedback now s).2
  | .statsCardClick cardType => handleStatsCardClick s cardType
  | .clearSearch =>
      { s with searchQuery := "", showSearch := false, activeStatsCard := none }
  | .clearAllFilters =>
      { s with searchQuery := "", filterDepartment := "all", sortBy := "name",
               activeStatsCard := none, showSearch := false }
  | .searchChange q => { s with searchQuery := q }
  | .departmentChange d => { s with filterDepartment := d }
  | .sortChange v => { s with sortBy := v }
  | .feedbackTextChange x => { s with feedbackText := x }
  | .starClick i => { s with feedbackRating := i.val + 1 }
  | .removeSearchFilter => { s with searchQuery := "" }
  | .removeDepartmentFilter => { s with filterDepartment := "all" }
  | .removeActiveStatsFilter => { s with activeStatsCard := none }
  | .backToHome => { s with currentView := "home" }
  | .successGoHome => { s with currentView := "home" }

/-- States reachable from the initial render by user-triggered transitions. -/
inductive Reachable : AppState → Prop where
  | init : Reachable initialState
  | next (s : AppState) (a : Action) : Reachable s → Reachable (step s a)

/-! Definitions transcribed from the specification's words, to be compared
with the embeddings of the source above. -/

/-- From the spec: the mean of the ratings, with ten times the mean rounded
to the nearest integer (ties up) to give one decimal place; 0 tenths when
there is no feedback. -/
def specAvgTenths (ratings : List Nat) : Nat :=
  if ratings = [] then 0
  else ⌊10 * (ratings.sum : ℚ) / (ratings.length : ℚ) + 1/2⌋₊

/-- From the spec: `averageRating` as formatted text — the one-decimal
rendering of `specAvgTenths`, which is `"0.0"` when no feedback exists. -/
def specAverageRating (ratings : List Nat) : String :=
  toString (specAvgTenths ratings / 10) ++ "." ++
    toString (specAvgTenths ratings % 10)

/-- From the spec: the roster pipeline — (1) department filter (identity
when `"all"`, else exact match); (2) when the search query is non-blank,
keep exactly the teachers whose name, department or subject contains the
query case-insensitively; (3) stable sort: descending rounded average
compared numerically for `"rating"`, descending count for `"feedbacks"`,
ascending locale comparison on names otherwise, ties keeping roster order. -/
def specFilteredAndSortedRoster (s : AppState) (lc : String → String → Int) :
    List Teacher :=
  let afterDept :=
    if s.filterDepartment = "all" then s.teachers
    else s.teachers.filter (fun t => t.department = s.filterDepartment)
  let afterSearch :=
    if strTrim s.searchQuery = "" then afterDept
    else afterDept.filter (fun t =>
      containsSub t.name s.searchQuery ||
      containsSub t.department s.searchQuery ||
      containsSub t.subject s.searchQuery)
  let le : Teacher → Teacher → Bool :=
    if s.sortBy = "rating" then
      fun a b => ratingValueTenths s b.id ≤ ratingValueTenths s a.id
    else if s.sortBy = "feedbacks" then
      fun a b => getFeedbackCount s b.id ≤ getFeedbackCount s a.id
    else
      fun a b => lc a.name b.name ≤ 0
  stableSort le afterSearch

/-! Concrete states used to exercise the theorems. -/

/-- The first sample teacher. -/
def teacher1 : Teacher :=
  { id := 1, name := "Dr. Rajesh Kumar", department := "Computer Science",
    subject := "Data Structures" }

/-- A state in the middle of a valid submission: teacher 1 selected, a
non-blank comment typed, rating 9 chosen. -/
def readyState : AppState :=
  { initialState with
    selectedTeacher := some teacher1
    anonymousId := "Anonymous 42"
    currentView := "feedback"
    feedbackText := " Great class "
    feedbackRating := 9 }

/-- `readyState` with the (unreachable) rating 11. -/
def rating11State : AppState :=
  { readyState with feedbackRating := 11 }

/-- A state in which teacher 1 has received ratings 6 and 8. -/
def ratings68State : AppState :=
  { initialState with
    feedbackData := fun tid =>
      if tid = 1 then
        [ { id := 100, anonymousId := "Anonymous 7", comment := "solid",
            rating := 6, timestamp := 100 },
          { id := 200, anonymousId := "Anonymous 8", comment := "strong",
            rating := 8, timestamp := 200 } ]
      else [] }

/-- C1: when a teacher is selected, the trimmed comment is non-blank and
the rating is in [1,10], `submitFeedback` succeeds: it appends exactly one
new `Feedback` — carrying the submission instant as id and timestamp, the
session's `anonymousId`, the trimmed comment and the given rating — to the
selected teacher's list and no other, the new id differs from every
existing feedback's id (existing entries were created at earlier clock
readings), the form fields are cleared, and the view becomes `"success"`. -/
theorem submitFeedback_success_spec (now : Nat) (s : AppState) (t : Teacher)
    (hsel : s.selectedTeacher = some t)
    (htext : strTrim s.feedbackText ≠ "")
    (hlo : 1 ≤ s.feedbackRating) (hhi : s.feedbackRating ≤ 10)
    (hclock : ∀ tid fb, fb ∈ s.feedbackData tid → fb.id < now) :
    (submitFeedback now s).1 = SubmitResult.success ∧
    (submitFeedback now s).2.feedbackData t.id =
      s.feedbackData t.id ++
        [{ id := now, anonymousId := s.anonymousId,
           comment := strTrim s.feedbackText,
           rating := s.feedbackRating, timestamp := now }] ∧
    (∀ tid fb, fb ∈ s.feedbackData tid → fb.id ≠ now) ∧
    (∀ tid, tid ≠ t.id →
      (submitFeedback now s).2.feedbackData tid = s.feedbackData tid) ∧
    (submitFeedback now s).2.feedbackText = "" ∧
    (submitFeedback now s).2.feedbackRating = 0 ∧
    (submitFeedback now s).2.currentView = "success" := by
  have hrate : s.feedbackRating ≠ 0 := by omega
  refine ⟨?_, ?_, ?_, ?_, ?_, ?_, ?_⟩ <;>
    simp [submitFeedback, hsel, htext, hrate]
  · intro tid fb hfb
    exact Nat.ne_of_lt (hclock tid fb hfb)
  · intro tid htid
    simp [htid]

/-- Closed instance of C1 at `readyState` with clock reading 1000. -/
theorem submitFeedback_success_witness :
    (submitFeedback 1000 readyState).1 = SubmitResult.success ∧
    (submitFeedback 1000 readyState).2.feedbackData teacher1.id =
      readyState.feedbackData teacher1.id ++
        [{ id := 1000, anonymousId := readyState.anonymousId,
           comment := strTrim readyState.feedbackText,
           rating := readyState.feedbackRating, timestamp := 1000 }] ∧
    (∀ tid fb, fb ∈ readyState.feedbackData tid → fb.id ≠ 1000) ∧
    (∀ tid, tid ≠ teacher1.id →
      (submitFeedback 1000 readyState).2.feedbackData tid =
        readyState.feedbackData tid) ∧
    (submitFeedback 1000 readyState).2.feedbackText = "" ∧
    (submitFeedback 1000 readyState).2.feedbackRating = 0 ∧
    (submitFeedback 1000 readyState).2.currentView = "success" :=
  submitFeedback_success_spec 1000 readyState teacher1 rfl (by decide)
    (by decide) (by decide)
    (by intro tid fb hfb; simp [readyState, initialState] at hfb)

/-- C2: when a precondition is violated, `submitFeedback` raises the
validation message of the first violated requirement — teacher selection,
then comment, then rating, in that order — and leaves the state untouched. -/
theorem submitFeedback_validation_spec (now : Nat) (s : AppState)
    (hbad : s.selectedTeacher = none ∨ strTrim s.feedbackText = "" ∨
      s.feedbackRating = 0) :
    (submitFeedback now s).2 = s ∧
    (submitFeedback now s).1 = SubmitResult.validationError
      (if s.selectedTeacher = none then "Please select a teacher"
       else if strTrim s.feedbackText = "" then "Please enter your feedback"
       else "Please provide a rating") := by
  cases hsel : s.selectedTeacher with
  | none => simp [submitFeedback, hsel]
  | some t =>
    have hbad2 : strTrim s.feedbackText = "" ∨ s.feedbackRating = 0 := by
      rcases hbad with h | h | h
      · exact absurd hsel (h ▸ by simp)
      · exact Or.inl h
      · exact Or.inr h
    by_cases htext : strTrim s.feedbackText = ""
    · simp [submitFeedback, hsel, htext]
    · have hrate : s.feedbackRating = 0 := by tauto
      simp [submitFeedback, hsel, htext, hrate]

/-- Closed instance of C2: `readyState` with a whitespace-only comment is
rejected with the comment message and unchanged state. -/
theorem submitFeedback_validation_witness :
    (submitFeedback 1000 { readyState with feedbackText := "   " }).2 =
      { readyState with feedbackText := "   " } ∧
    (submitFeedback 1000 { readyState with feedbackText := "   " }).1 =
      SubmitResult.validationError
        (if { readyState with feedbackText := "   " }.selectedTeacher = none
         then "Please select a teacher"
         else if strTrim { readyState with feedbackText := "   " }.feedbackText = ""
         then "Please enter your feedback"
         else "Please provide a rating") :=
  submitFeedback_validation_spec 1000 { readyState with feedbackText := "   " }
    (Or.inr (Or.inl (by decide)))

/-- Refutation of C3 as stated: at `rating11State` — teacher selected,
non-blank comment, rating 11, which is outside [1,10] — the submission
does not fail: it succeeds and mutates the feedback mapping, because the
source only checks `feedbackRating === 0`. -/
theorem rating11_accepted :
    rating11State.selectedTeacher = some teacher1 ∧
    strTrim rating11State.feedbackText ≠ "" ∧
    ¬(1 ≤ rating11State.feedbackRating ∧ rating11State.feedbackRating ≤ 10) ∧
    (submitFeedback 1000 rating11State).1 = SubmitResult.success ∧
    (submitFeedback 1000 rating11State).2.feedbackData 1 ≠
      rating11State.feedbackData 1 ∧
    (submitFeedback 1000 rating11State).2.currentView = "success" := by
  refine ⟨rfl, by decide, by decide, rfl, by decide, rfl⟩

/-- C3 as amended: the rating check of `submitFeedback` rejects exactly
`feedbackRating = 0`; since the star control only produces ratings in
[1,10] (and the reset produces 0), on ratings ≤ 10 this coincides with
requiring a rating in [1,10].  With teacher and comment valid and the
rating ≤ 10 but outside [1,10], the submission fails with the rating
message and performs no mutation. -/
theorem submitFeedback_rating_validation (now : Nat) (s : AppState)
    (t : Teacher) (hsel : s.selectedTeacher = some t)
    (htext : strTrim s.feedbackText ≠ "")
    (hhi : s.feedbackRating ≤ 10)
    (hout : ¬(1 ≤ s.feedbackRating ∧ s.feedbackRating ≤ 10)) :
    (submitFeedback now s).1 =
      SubmitResult.validationError "Please provide a rating" ∧
    (submitFeedback now s).2 = s := by
  have hrate : s.feedbackRating = 0 := by omega
  simp [submitFeedback, hsel, htext, hrate]

/-- Closed instance of amended C3 at `readyState` with the rating reset
to 0. -/
theorem submitFeedback_rating_validation_witness :
    (submitFeedback 1000 { readyState with feedbackRating := 0 }).1 =
      SubmitResult.validationError "Please provide a rating" ∧
    (submitFeedback 1000 { readyState with feedbackRating := 0 }).2 =
      { readyState with feedbackRating := 0 } :=
  submitFeedback_rating_validation 1000
    { readyState with feedbackRating := 0 } teacher1 rfl (by decide)
    (by decide) (by decide)

/-- C10: a successful submission changes only the feedback mapping (one
appended entry for the selected teacher), the two form fields and the
view; every other component — the roster, the selection, the session id,
the filter, sort, search and stat-card state — keeps its prior value. -/
theorem submitFeedback_frame (now : Nat) (s : AppState) (t : Teacher)
    (hsel : s.selectedTeacher = some t)
    (htext : strTrim s.feedbackText ≠ "")
    (hrate : s.feedbackRating ≠ 0) :
    (submitFeedback now s).2.selectedTeacher = s.selectedTeacher ∧
    (submitFeedback now s).2.anonymousId = s.anonymousId ∧
    (submitFeedback now s).2.teachers = s.teachers ∧
    (submitFeedback now s).2.filterDepartment = s.filterDepartment ∧
    (submitFeedback now s).2.sortBy = s.sortBy ∧
    (submitFeedback now s).2.searchQuery = s.searchQuery ∧
    (submitFeedback now s).2.showSearch = s.showSearch ∧
    (submitFeedback now s).2.activeStatsCard = s.activeStatsCard ∧
    (submitFeedback now s).2.feedbackText = "" ∧
    (submitFeedback now s).2.feedbackRating = 0 ∧
    (submitFeedback now s).2.currentView = "success" ∧
    (∀ tid, tid ≠ t.id →
      (submitFeedback now s).2.feedbackData tid = s.feedbackData tid) ∧
    ∃ fb, (submitFeedback now s).2.feedbackData t.id =
      s.feedbackData t.id ++ [fb] := by
  refine ⟨?_, ?_, ?_, ?_, ?_, ?_, ?_, ?_, ?_, ?_, ?_, ?_, ?_⟩ <;>
    simp [submitFeedback, hsel, htext, hrate]
  intro tid htid
  simp [htid]

/-- Closed instance of C10 at `readyState`. -/
theorem submitFeedback_frame_witness :
    (submitFeedback 1000 readyState).2.selectedTeacher =
      readyState.selectedTeacher ∧
    (submitFeedback 1000 readyState).2.anonymousId = readyState.anonymousId ∧
    (submitFeedback 1000 readyState).2.teachers = readyState.teachers ∧
    (submitFeedback 1000 readyState).2.filterDepartment =
      readyState.filterDepartment ∧
    (submitFeedback 1000 readyState).2.sortBy = readyState.sortBy ∧
    (submitFeedback 1000 readyState).2.searchQuery = readyState.searchQuery ∧
    (submitFeedback 1000 readyState).2.showSearch = readyState.showSearch ∧
    (submitFeedback 1000 readyState).2.activeStatsCard =
      readyState.activeStatsCard ∧
    (submitFeedback 1000 readyState).2.feedbackText = "" ∧
    (submitFeedback 1000 readyState).2.feedbackRating = 0 ∧
    (submitFeedback 1000 readyState).2.currentView = "success" ∧
    (∀ tid, tid ≠ teacher1.id →
      (submitFeedback 1000 readyState).2.feedbackData tid =
        readyState.feedbackData tid) ∧
    ∃ fb, (submitFeedback 1000 readyState).2.feedbackData teacher1.id =
      readyState.feedbackData teacher1.id ++ [fb] :=
  submitFeedback_frame 1000 readyState teacher1 rfl (by decide) (by decide)

/-- C6: every operation either leaves the feedback mapping unchanged or
appends exactly one entry to the end of one teacher's list; in particular
every list only ever grows at the end, so existing entries and their
order persist. -/
theorem feedbackData_append_only (s : AppState) (a : Action) :
    (∀ tid, ∃ suffix,
      (step s a).feedbackData tid = s.feedbackData tid ++ suffix) ∧
    ((step s a).feedbackData = s.feedbackData ∨
      ∃ tid fb,
        (step s a).feedbackData tid = s.feedbackData tid ++ [fb] ∧
        ∀ tid2, tid2 ≠ tid →
          (step s a).feedbackData tid2 = s.feedbackData tid2) := by
  have triv : (step s a).feedbackData = s.feedbackData →
      (∀ tid, ∃ suffix,
        (step s a).feedbackData tid = s.feedbackData tid ++ suffix) ∧
      ((step s a).feedbackData = s.feedbackData ∨
        ∃ tid fb,
          (step s a).feedbackData tid = s.feedbackData tid ++ [fb] ∧
          ∀ tid2, tid2 ≠ tid →
            (step s a).feedbackData tid2 = s.feedbackData tid2) :=
    fun h => ⟨fun tid => ⟨[], by rw [h, List.append_nil]⟩, Or.inl h⟩
  cases a with
  | submit now =>
    cases hsel : s.selectedTeacher with
    | none => exact triv (by simp [step, submitFeedback, hsel])
    | some t =>
      by_cases htext : strTrim s.feedbackText = ""
      · exact triv (by simp [step, submitFeedback, hsel, htext])
      · by_cases hrate : s.feedbackRating = 0
        · exact triv (by simp [step, submitFeedback, hsel, htext, hrate])
        · constructor
          · intro tid
            by_cases htid : tid = t.id
            · exact ⟨[{ id := now, anonymousId := s.anonymousId,
                        comment := strTrim s.feedbackText,
                        rating := s.feedbackRating, timestamp := now }],
                by simp [step, submitFeedback, hsel, htext, hrate, htid]⟩
            · exact ⟨[], by simp [step, submitFeedback, hsel, htext, hrate, htid]⟩
          · refine Or.inr ⟨t.id,
              { id := now, anonymousId := s.anonymousId,
                comment := strTrim s.feedbackText,
                rating := s.feedbackRating, timestamp := now }, ?_, ?_⟩
            · simp [step, submitFeedback, hsel, htext, hrate]
            · intro tid2 htid2
              simp [step, submitFeedback, hsel, htext, hrate, htid2]
  | statsCardClick cardType =>
    refine triv ?_
    simp only [step, handleStatsCardClick]
    split_ifs <;> rfl
  | initAnonymousId n => exact triv rfl
  | selectTeacher t => exact triv rfl
  | clearSearch => exact triv rfl
  | clearAllFilters => exact triv rfl
  | searchChange q => exact triv rfl
  | departmentChange d => exact triv rfl
  | sortChange v => exact triv rfl
  | feedbackTextChange x => exact triv rfl
  | starClick i => exact triv rfl
  | removeSearchFilter => exact triv rfl
  | removeDepartmentFilter => exact triv rfl
  | removeActiveStatsFilter => exact triv rfl
  | backToHome => exact triv rfl
  | successGoHome => exact triv rfl

/-- C7: in every state reachable from the initial render, being on the
`"feedback"` view implies a teacher is selected — the only transition
into that view is a teacher-card click, which sets the selection in the
same step, and nothing ever clears the selection. -/
theorem feedback_view_has_selection (s : AppState) (h : Reachable s) :
    s.currentView = "feedback" → ∃ t, s.selectedTeacher = some t := by
  induction h with
  | init => intro hv; exact absurd hv (by decide)
  | next s' a _ ih =>
    intro hv
    cases a with
    | selectTeacher t => exact ⟨t, rfl⟩
    | submit now =>
      cases hsel : s'.selectedTeacher with
      | none =>
        have hstep : step s' (Action.submit now) = s' := by
          simp [step, submitFeedback, hsel]
        rw [hstep] at hv ⊢
        exact ih hv
      | some t =>
        refine ⟨t, ?_⟩
        by_cases htext : strTrim s'.feedbackText = ""
        · simp [step, submitFeedback, hsel, htext]
        · by_cases hrate : s'.feedbackRating = 0
          · simp [step, submitFeedback, hsel, htext, hrate]
          · simp [step, submitFeedback, hsel, htext, hrate]
    | statsCardClick cardType =>
      have hview : s'.currentView = "feedback" := by
        have := hv
        simp only [step, handleStatsCardClick] at this
        split_ifs at this <;> exact this
      have hsame : (step s' (.statsCardClick cardType)).selectedTeacher =
          s'.selectedTeacher := by
        simp only [step, handleStatsCardClick]
        split_ifs <;> rfl
      rw [hsame]
      exact ih hview
    | initAnonymousId n => exact ih hv
    | clearSearch => exact ih hv
    | clearAllFilters => exact ih hv
    | searchChange q => exact ih hv
    | departmentChange d => exact ih hv
    | sortChange v => exact ih hv
    | feedbackTextChange x => exact ih hv
    | starClick i => exact ih hv
    | removeSearchFilter => exact ih hv
    | removeDepartmentFilter => exact ih hv
    | removeActiveStatsFilter => exact ih hv
    | backToHome => simp [step] at hv
    | successGoHome => simp [step] at hv

/-- Closed instance of C7: after clicking teacher 1's card from the home
screen, the view is `"feedback"` and a teacher is indeed selected. -/
theorem feedback_view_has_selection_witness :
    ∃ t, (step initialState (Action.selectTeacher teacher1)).selectedTeacher =
      some t :=
  feedback_view_has_selection _
    (Reachable.next _ _ Reachable.init) rfl

/-- C8: `timeAgo` formats by the floored elapsed whole minutes `m`:
`"Just now"` for `m < 1`, `"{m}m ago"` for `m < 60`, `"{h}h ago"` with
`h = ⌊m/60⌋` for `m < 1440`, `"{d}d ago"` with `d = ⌊m/1440⌋` otherwise;
a timestamp 90 seconds in the past gives `"1m ago"` and one 30 seconds in
the past gives `"Just now"`. -/
theorem timeAgo_tiers (nowMs tsMs : Int) :
    ((nowMs - tsMs).fdiv 60000 < 1 → timeAgo nowMs tsMs = "Just now") ∧
    (1 ≤ (nowMs - tsMs).fdiv 60000 → (nowMs - tsMs).fdiv 60000 < 60 →
      timeAgo nowMs tsMs =
        toString ((nowMs - tsMs).fdiv 60000) ++ "m ago") ∧
    (60 ≤ (nowMs - tsMs).fdiv 60000 → (nowMs - tsMs).fdiv 60000 < 1440 →
      timeAgo nowMs tsMs =
        toString (((nowMs - tsMs).fdiv 60000).fdiv 60) ++ "h ago") ∧
    (1440 ≤ (nowMs - tsMs).fdiv 60000 →
      timeAgo nowMs tsMs =
        toString (((nowMs - tsMs).fdiv 60000).fdiv 1440) ++ "d ago") ∧
    timeAgo nowMs (nowMs - 90000) = "1m ago" ∧
    timeAgo nowMs (nowMs - 30000) = "Just now" := by
  have h90 : nowMs - (nowMs - 90000) = 90000 := by ring
  have h30 : nowMs - (nowMs - 30000) = 30000 := by ring
  refine ⟨fun h1 => ?_, fun h1 h2 => ?_, fun h1 h2 => ?_, fun h1 => ?_, ?_, ?_⟩
  · simp only [timeAgo]
    rw [if_pos h1]
  · simp only [timeAgo]
    rw [if_neg (by omega), if_pos h2]
  · simp only [timeAgo]
    rw [if_neg (by omega), if_neg (by omega), if_pos h2]
  · simp only [timeAgo]
    rw [if_neg (by omega), if_neg (by omega), if_neg (by omega)]
  · simp only [timeAgo, h90]
    decide
  · simp only [timeAgo, h30]
    decide

/-- Closed instance of C8 at clock reading 130000 ms and timestamp 0:
the elapsed 2 minutes render as `"2m ago"`. -/
theorem timeAgo_tiers_witness :
    timeAgo 130000 0 = toString (((130000 : Int) - 0).fdiv 60000) ++ "m ago" :=
  (timeAgo_tiers 130000 0).2.1 (by decide) (by decide)

/-- Refutation of C9 as stated: clicking the Departments stat card does
not close the search box *only* — it additionally records the card in
`activeStatsCard`, so the result differs from the state with just
`showSearch` cleared. -/
theorem statsCard_departments_not_only_search :
    handleStatsCardClick initialState "departments" ≠
      { initialState with showSearch := false } := by
  intro h
  have h2 := congrArg AppState.activeStatsCard h
  simp [handleStatsCardClick, initialState] at h2

/-- C9 as amended: each stat-card click records the clicked card in
`activeStatsCard`; beyond that, Faculty opens the search box and resets
the department filter and search text, Departments only closes the search
box, and Reviews closes the search box and sets the sort to
`"feedbacks"`; nothing else changes. -/
theorem handleStatsCardClick_effects (s : AppState) :
    handleStatsCardClick s "faculty" =
      { s with activeStatsCard := some "faculty", showSearch := true,
               filterDepartment := "all", searchQuery := "" } ∧
    handleStatsCardClick s "departments" =
      { s with activeStatsCard := some "departments", showSearch := false } ∧
    handleStatsCardClick s "reviews" =
      { s with activeStatsCard := some "reviews", showSearch := false,
               sortBy := "feedbacks" } :=
  ⟨rfl, rfl, rfl⟩

/-- The `reduce` over ratings is the sum of the ratings. -/
theorem foldl_rating_sum (l : List Feedback) (n : Nat) :
    l.foldl (fun acc fb => acc + fb.rating) n =
      n + (l.map Feedback.rating).sum := by
  induction l generalizing n with
  | nil => simp
  | cons fb l ih => simp [List.foldl_cons, ih]; omega

/-- Half-up rounding of ten times the mean, computed in `ℚ`, agrees with
the integer formula `(20 * sum + len) / (2 * len)`. -/
theorem floor_tenths (sum len : Nat) (h : len ≠ 0) :
    ⌊10 * (sum : ℚ) / (len : ℚ) + 1/2⌋₊ = (20 * sum + len) / (2 * len) := by
  have hlen : (len : ℚ) ≠ 0 := Nat.cast_ne_zero.mpr h
  have key : 10 * (sum : ℚ) / (len : ℚ) + 1/2 =
      ((20 * sum + len : ℕ) : ℚ) / ((2 * len : ℕ) : ℚ) := by
    push_cast
    field_simp
    ring
  rw [key, Nat.floor_div_nat, Nat.floor_natCast]

/-- C5: `calculateAverageRating` returns exactly the specification's
value — the mean of the teacher's ratings formatted to one decimal place,
`"0.0"` when the teacher has no feedback — and in particular `"7.0"` for
ratings `[6, 8]`. -/
theorem calculateAverageRating_correct :
    (∀ (s : AppState) (tid : Nat),
      calculateAverageRating s tid =
        specAverageRating ((s.feedbackData tid).map Feedback.rating)) ∧
    (∀ (s : AppState) (tid : Nat), s.feedbackData tid = [] →
      calculateAverageRating s tid = "0.0") ∧
    (∀ (s : AppState) (tid : Nat),
      (s.feedbackData tid).map Feedback.rating = [6, 8] →
      calculateAverageRating s tid = "7.0") := by
  have main : ∀ (s : AppState) (tid : Nat),
      calculateAverageRating s tid =
        specAverageRating ((s.feedbackData tid).map Feedback.rating) := by
    intro s tid
    by_cases hnil : s.feedbackData tid = []
    · simp [calculateAverageRating, specAverageRating, specAvgTenths, hnil]
      decide
    · have hlen : (s.feedbackData tid).length ≠ 0 := by
        simpa using fun h => hnil (List.length_eq_zero.mp h)
      have hmapnil : (s.feedbackData tid).map Feedback.rating ≠ [] := by
        simpa using hnil
      rw [calculateAverageRating, toFixed1, specAverageRating, specAvgTenths,
        if_neg hlen, if_neg hmapnil, foldl_rating_sum]
      simp only [List.length_map, Nat.zero_add]
      rw [floor_tenths _ _ hlen]
  refine ⟨main, ?_, ?_⟩
  · intro s tid h
    simp [calculateAverageRating, h]
  · intro s tid h
    have hlen : (s.feedbackData tid).length = 2 := by
      simpa using congrArg List.length h
    rw [calculateAverageRating, if_neg (by omega), toFixed1,
      foldl_rating_sum, h, hlen]
    decide

/-- Closed instance of C5: at `ratings68State`, teacher 1 — whose two
ratings are 6 and 8 — has average `"7.0"`, and teacher 2 — with no
feedback — has average `"0.0"`. -/
theorem calculateAverageRating_witness :
    calculateAverageRating ratings68State 1 = "7.0" ∧
    calculateAverageRating ratings68State 2 = "0.0" :=
  ⟨calculateAverageRating_correct.2.2 ratings68State 1 (by decide),
   calculateAverageRating_correct.2.1 ratings68State 2 (by decide)⟩

/-- A guard of the form `if a ≠ b` is the flipped `if a = b`. -/
theorem ite_ne_flip {α β : Type} (a b : α) [DecidableEq α] (x y : β) :
    (if a ≠ b then x else y) = (if a = b then y else x) := by
  by_cases h : a = b <;> simp [h]

/-- The sign of the JS comparator agrees, for each `sortBy` value, with
the specification's key ordering: `c a b ≤ 0` is "descending rounded
average", "descending count", or "ascending locale order on names". -/
theorem teacherCompare_le_iff (s : AppState) (lc : String → String → Int) :
    (fun a b => teacherCompare s lc a b ≤ 0 : Teacher → Teacher → Bool) =
      (if s.sortBy = "rating" then
        (fun a b => ratingValueTenths s b.id ≤ ratingValueTenths s a.id :
          Teacher → Teacher → Bool)
      else if s.sortBy = "feedbacks" then
        (fun a b => getFeedbackCount s b.id ≤ getFeedbackCount s a.id :
          Teacher → Teacher → Bool)
      else
        (fun a b => lc a.name b.name ≤ 0 : Teacher → Teacher → Bool)) := by
  by_cases h3 : s.sortBy = "rating"
  · rw [if_pos h3]
    funext a b
    rw [decide_eq_decide, teacherCompare, if_pos h3]
    omega
  · by_cases h4 : s.sortBy = "feedbacks"
    · rw [if_neg h3, if_pos h4]
      funext a b
      rw [decide_eq_decide, teacherCompare, if_neg h3, if_pos h4]
      omega
    · rw [if_neg h3, if_neg h4]
      funext a b
      rw [decide_eq_decide, teacherCompare, if_neg h3, if_neg h4]

/-- C4: `filteredAndSortedTeachers` computes exactly the specification's
pipeline — department filter (identity for `"all"`), then the
case-insensitive substring search when the query is non-blank, then the
stable sort by the `sortBy` key, equal keys keeping roster order. -/
theorem filteredAndSortedRoster_correct (s : AppState)
    (lc : String → String → Int) :
    filteredAndSortedTeachers s lc = specFilteredAndSortedRoster s lc := by
  simp only [filteredAndSortedTeachers, specFilteredAndSortedRoster]
  rw [teacherCompare_le_iff, ite_ne_flip, ite_ne_flip]

end FeedbackApp
